import Mathlib

/-!
Verification development for the portal's core: the application-status
reconciliation loop (`Dashboard.tsx`), the notification deduplicator
(`showUniqueToast`), the counterpart resolver and the message
synchronization layer (`Messages.tsx`).

Remote tables and query results are passed in explicitly: each supabase
query of the source becomes either a pure function over the table contents
(when the query's filtering/ordering is in the source) or an oracle value
(`Except Unit α`) representing the awaited response, so that every control
path of the source — including the catch blocks — is reproduced.
-/

namespace MediaTiger

/-- A row of the `messages` table as the component receives it. -/
structure MsgRow where
  id : String
  sender_id : String
  receiver_id : String
  content : String
  image_url : Option String
  created_at : Nat
deriving DecidableEq, Repr

/-- The authenticated user (`useAuth().user`): id plus `user_metadata.role`. -/
structure User where
  id : String
  role : Option String
deriving DecidableEq, Repr

/-- The resolved counterpart (`AdminUser` interface in Messages.tsx). -/
structure AdminUser where
  id : String
  email : String
  full_name : String
deriving DecidableEq, Repr

/-- A row of the `user_requests` table. -/
structure UserRequest where
  user_id : String
  status : String
  created_at : Nat
deriving DecidableEq, Repr

/-- A row of the `admin_access` audit table. -/
structure AuditRow where
  accessed_user_id : String
  access_reason : Option String
  accessed_at : Nat
deriving DecidableEq, Repr

/-- JavaScript `x || null` on an optional string: empty string collapses to null. -/
def orNull (x : Option String) : Option String :=
  match x with
  | some "" => none
  | x => x

/-! ### Message fetching (Messages.tsx)

`fetchMessages` appears twice in the source: the copy inside the first
`useEffect` (lines 27-43) orders by `created_at` ascending, the
component-level copy (lines 121-136) orders descending.  Both filter with
`.or(sender_id.eq.user.id, receiver_id.eq.user.id)` and replace the local
`messages` state wholesale. -/

/-- The `.or(sender_id.eq.uid,receiver_id.eq.uid)` row filter. -/
def involvesUser (uid : String) (m : MsgRow) : Bool :=
  m.sender_id == uid || m.receiver_id == uid

/-- `order("created_at", ascending: true)` comparison key. -/
def createdLe (a b : MsgRow) : Prop := a.created_at ≤ b.created_at

/-- `order("created_at", ascending: false)` comparison key. -/
def createdGe (a b : MsgRow) : Prop := b.created_at ≤ a.created_at

instance : DecidableRel createdLe :=
  fun a b => inferInstanceAs (Decidable (a.created_at ≤ b.created_at))

instance : DecidableRel createdGe :=
  fun a b => inferInstanceAs (Decidable (b.created_at ≤ a.created_at))

instance : IsTotal MsgRow createdLe :=
  ⟨fun a b => Nat.le_total a.created_at b.created_at⟩

instance : IsTotal MsgRow createdGe :=
  ⟨fun a b => Nat.le_total b.created_at a.created_at⟩

instance : IsTrans MsgRow createdLe :=
  ⟨fun _ _ _ h1 h2 => Nat.le_trans h1 h2⟩

instance : IsTrans MsgRow createdGe :=
  ⟨fun _ _ _ h1 h2 => Nat.le_trans h2 h1⟩

/-- The first effect's fetch (lines 27-43): ascending by `created_at`;
ties keep store order (the query specifies no secondary key). -/
def fetchMessagesAsc (uid : String) (store : List MsgRow) : List MsgRow :=
  List.insertionSort createdLe (store.filter (involvesUser uid))

/-- The component-level fetch (lines 121-136): descending by `created_at`. -/
def fetchMessagesDesc (uid : String) (store : List MsgRow) : List MsgRow :=
  List.insertionSort createdGe (store.filter (involvesUser uid))

/-- Local state of the Messages component. -/
structure MessagesState where
  messages : List MsgRow
  newMessage : String
  selectedFile : Option String
  isModalOpen : Bool
  adminUser : Option AdminUser
deriving DecidableEq, Repr

/-- `setMessages(result)` as executed when a fetch response resolves:
the response is installed unconditionally — no request sequence number,
no staleness check of any kind appears in the source. -/
def applyFetchResult (s : MessagesState) (result : List MsgRow) : MessagesState :=
  { s with messages := result }

/-! ### Notification deduplicator (Dashboard.tsx lines 28-49)

`shownToasts` is a set of keys; an entry added at time `t` is removed by a
`setTimeout` at `t + 5` (seconds).  We carry the expiry with each ticket
and drop expired tickets whenever the set is consulted, which on the
single cooperative timeline is observationally the deletion callback. -/

structure Ticket where
  key : String
  expiresAt : Nat
deriving DecidableEq, Repr

/-- Tickets whose deletion timeout has not yet fired at time `t`. -/
def purgeExpired (t : Nat) (s : List Ticket) : List Ticket :=
  s.filter (fun e => decide (t < e.expiresAt))

/-- `const toastId = id || message` — an absent or empty id falls back to
the message text. -/
def toastKey (message : String) (idOpt : Option String) : String :=
  match idOpt with
  | some i => if i == "" then message else i
  | none => message

/-- `showUniqueToast`: fires (returns `true`) only when no live ticket
holds the key; firing books a ticket expiring 5 seconds later. -/
def showUniqueToast (s : List Ticket) (t : Nat) (message _severity : String)
    (idOpt : Option String) : List Ticket × Bool :=
  let k := toastKey message idOpt
  let live := purgeExpired t s
  if live.any (fun e => e.key == k) then (live, false)
  else ({ key := k, expiresAt := t + 5 } :: live, true)

/-! ### Application-status tracker (Dashboard.tsx lines 84-149) -/

/-- The tracker's piece of component state. -/
structure TrackerState where
  hasRequest : Bool
  applicationStatus : Option String
  rejectionReason : Option String
deriving DecidableEq, Repr

/-- Awaited responses of the three queries issued by one `checkStatus`
call: existence probe on `user_requests`, then the status read, then the
`admin_access` reason (whose error the source never checks, so it is
already folded into an `Option`). -/
structure ReconcileOracles where
  q1 : Except Unit Bool
  q2 : Except Unit (Option String)
  q3 : Option String
deriving Repr

/-- Side effects emitted by one `checkStatus` call. -/
structure ReconcileEffects where
  successToast : Bool
  errorToast : Bool
  navigateHome : Bool
  loggedError : Bool
deriving DecidableEq, Repr

/-- No side effect. -/
def noEff : ReconcileEffects :=
  { successToast := false, errorToast := false, navigateHome := false, loggedError := false }

/-- Only `console.error` fired (the catch block). -/
def logEff : ReconcileEffects :=
  { successToast := false, errorToast := false, navigateHome := false, loggedError := true }

/-- `admin_access` query (lines 114-120): rows matching the user, ordered
by `accessed_at` descending, `limit(1)`, reason read as `x || null`. -/
def accessedGe (a b : AuditRow) : Prop := b.accessed_at ≤ a.accessed_at

instance : DecidableRel accessedGe :=
  fun a b => inferInstanceAs (Decidable (b.accessed_at ≤ a.accessed_at))

instance : IsTotal AuditRow accessedGe :=
  ⟨fun a b => Nat.le_total b.accessed_at a.accessed_at⟩

instance : IsTrans AuditRow accessedGe :=
  ⟨fun _ _ _ h1 h2 => Nat.le_trans h2 h1⟩

def latestAccessReason (uid : String) (rows : List AuditRow) : Option String :=
  match (List.insertionSort accessedGe
      (rows.filter (fun r => r.accessed_user_id == uid))).head? with
  | none => none
  | some r => orNull r.access_reason

/-- One `checkStatus` run (lines 85-142).  Note the source order:
`setHasRequest` executes before the status query, the rejection reason is
written before the toast branch, and the `approved` branch fires a plain
`toast.success` (not `showUniqueToast`) and contains no `clearInterval`. -/
def checkStatus (s : TrackerState) (o : ReconcileOracles) :
    TrackerState × ReconcileEffects :=
  match o.q1 with
  | Except.error _ => (s, logEff)
  | Except.ok hasReq =>
    let s1 := { s with hasRequest := hasReq }
    if hasReq then
      match o.q2 with
      | Except.error _ => (s1, logEff)
      | Except.ok stRaw =>
        let st := orNull stRaw
        let s2 := { s1 with applicationStatus := st }
        let s3 := if st == some "rejected" then { s2 with rejectionReason := o.q3 } else s2
        if st == some "approved" then
          (s3, { noEff with successToast := true })
        else if st == some "rejected" then
          (s3, { noEff with errorToast := true, navigateHome := true })
        else (s3, noEff)
    else (s1, noEff)

/-- The separate redirect effect (lines 152-156).  Its dependency array
is `[hasRequest, applicationStatus, navigate]`, so after the initial
render it re-runs only when one of those rendered values changed; when it
runs it navigates if the new state has a request with status `rejected`.
`prev` is the previously rendered state, `cur` the newly rendered one. -/
def redirectEffectRuns (prev cur : TrackerState) : Bool :=
  (prev.hasRequest != cur.hasRequest
      || prev.applicationStatus != cur.applicationStatus)
    && (cur.hasRequest && (cur.applicationStatus == some "rejected"))

/-- Navigation emissions caused by one reconciliation applied to an
already-rendered state `s`: the `navigate("/")` inside `checkStatus` plus
the state-watching effect's, when the state change re-triggers it.  (At
mount the effect also runs once, on the initial state — whose
`hasRequest := false` makes it a no-op — so re-renders are the only
navigating case.) -/
def reconcileNavigations (s : TrackerState) (o : ReconcileOracles) : Nat :=
  let out := checkStatus s o
  (if out.2.navigateHome then 1 else 0)
    + (if redirectEffectRuns s out.1 then 1 else 0)

/-- A run of successive interval ticks, counting success toasts. -/
def runReconciliations (s : TrackerState) (os : List ReconcileOracles) :
    TrackerState × Nat :=
  os.foldl
    (fun acc o =>
      let out := checkStatus acc.1 o
      (out.1, acc.2 + (if out.2.successToast then 1 else 0)))
    (s, 0)

/-! ### Counterpart resolution (Messages.tsx lines 70-113) -/

/-- `.in("status", ["pending", "approved"])`. -/
def qualifies (r : UserRequest) : Bool :=
  r.status == "pending" || r.status == "approved"

/-- Admin branch of `loadAdminUser`: qualifying rows, `limit(1).single()`
— the first qualifying row in store order; the query has no `order`
clause.  A zero-row result makes `.single()` error, which the catch block
turns into no counterpart. -/
def loadAdminUserPick (requests : List UserRequest) : Option String :=
  ((requests.filter qualifies).head?).map UserRequest.user_id

/-- Follows the spec sentence, for comparison with `loadAdminUserPick`
(the source): the qualifying request with the greatest `created_at`. -/
def specMostRecentQualifyingPick (requests : List UserRequest) : Option String :=
  ((requests.filter qualifies).foldl
    (fun acc r =>
      match acc with
      | none => some r
      | some b => if b.created_at < r.created_at then some r else some b)
    none).map UserRequest.user_id

/-! ### Sending (Messages.tsx lines 172-213) -/

/-- Awaited responses used by one `handleSendMessage` call. -/
structure SendOracles where
  uploadResult : Except Unit String
  insertFails : Bool
  storeAfterInsert : List MsgRow
  now : Nat

/-- The upload step: skipped without a selected file, otherwise the
storage upload's outcome (public URL on success, thrown error otherwise). -/
def uploadStep (s : MessagesState) (o : SendOracles) : Except Unit (Option String) :=
  match s.selectedFile with
  | none => Except.ok none
  | some _ => o.uploadResult.map some

/-- The record handed to `supabase.from("messages").insert` (lines
195-203): sender is the current user, receiver is the imported `adminId`
constant, content trimmed, `image_url: fileUrl || null`. -/
structure InsertRow where
  sender_id : String
  receiver_id : String
  content : String
  image_url : Option String
  created_at : Nat
deriving DecidableEq, Repr

def insertPayload (adminIdC : String) (u : User) (s : MessagesState)
    (o : SendOracles) (fileUrl : Option String) : InsertRow :=
  { sender_id := u.id, receiver_id := adminIdC, content := s.newMessage.trim,
    image_url := orNull fileUrl, created_at := o.now }

/-- `handleSendMessage`: optional upload, then insert; on success the
inputs are cleared and `fetchMessages` (the descending one) replaces the
list; any thrown error lands in the catch block, which only logs.  The
second component is the row passed to `insert`, when one was built. -/
def handleSendMessage (adminIdC : String) (u : User) (s : MessagesState)
    (o : SendOracles) : MessagesState × Option InsertRow :=
  match uploadStep s o with
  | Except.error _ => (s, none)
  | Except.ok fileUrl =>
    let row := insertPayload adminIdC u s o fileUrl
    if o.insertFails then (s, some row)
    else
      ({ s with
          newMessage := "", selectedFile := none, isModalOpen := false,
          messages := fetchMessagesDesc u.id o.storeAfterInsert },
        some row)

/-! ### Subscription effect setup (Messages.tsx lines 26-67) -/

/-- What the thrown `TypeError` reports when `user` is null. -/
def nullDerefMsg : String := "TypeError: cannot read id of null"

/-- The realtime filter template (line 55) dereferences `user.id` with no
null guard, so building it on a null user throws. -/
def realtimeFilter (user : Option User) : Except String String :=
  match user with
  | none => Except.error nullDerefMsg
  | some u => Except.ok ("sender_id=eq." ++ u.id ++ " OR receiver_id=eq." ++ u.id)

/-- The inner `fetchMessages` is guarded by `if (!user) return`, so it
no-ops on a null user. -/
def fetchMessagesGuarded (user : Option User) (store : List MsgRow) :
    Option (List MsgRow) :=
  user.map (fun u => fetchMessagesAsc u.id store)

/-- The whole effect body: kick off the guarded fetch, then build the
subscription filter.  The effect completes only if the filter builds. -/
def messagesEffectSetup (user : Option User) (store : List MsgRow) :
    Except String (Option (List MsgRow) × String) :=
  match realtimeFilter user with
  | Except.error e => Except.error e
  | Except.ok f => Except.ok (fetchMessagesGuarded user store, f)

/-! ## Theorems -/

/-- Concrete message rows used in counterexamples. -/
def mA : MsgRow :=
  { id := "a", sender_id := "u", receiver_id := "adm", content := "first",
    image_url := none, created_at := 1 }

def mB : MsgRow :=
  { id := "b", sender_id := "u", receiver_id := "adm", content := "second",
    image_url := none, created_at := 2 }

/-- C2 counterexample: the component-level `fetchMessages` (lines 121-136)
orders by `created_at` *descending*, so with `mA.created_at < mB.created_at`
the displayed list after a refresh through it is `[mB, mA]` — `mA` does not
appear before `mB`, falsifying the claimed ascending display order. -/
theorem c2_display_order_counterexample :
    mA.created_at < mB.created_at ∧
      fetchMessagesDesc "u" [mA, mB] = [mB, mA] := by
  constructor
  · decide
  · rfl

/-- C2 amended: each fetch sorts only by `created_at` — the mount effect's
fetch (lines 27-43) ascending, the component-level fetch (lines 121-136)
descending — so the displayed order depends on which fetch ran last, and
equal timestamps carry no id tie-break (insertion sort keeps store order). -/
theorem c2_fetch_order_amended (uid : String) (store : List MsgRow) :
    (fetchMessagesAsc uid store).Sorted createdLe ∧
      (fetchMessagesDesc uid store).Sorted createdGe :=
  ⟨List.sorted_insertionSort createdLe _, List.sorted_insertionSort createdGe _⟩

/-- C7: with key `k`, a first `showUniqueToast` at `t1` fires, a second
call inside the 5-second window (`t2 < t1 + 5`) is suppressed, and a call
at or after expiry (`t1 + 5 ≤ t3`) fires again — exactly the claimed
deduplication behaviour. -/
theorem c7_dedup_window (k m sev : String) (t1 t2 t3 : Nat)
    (hk : (k == "") = false) (h2 : t2 < t1 + 5) (h3 : t1 + 5 ≤ t3) :
    (showUniqueToast [] t1 m sev (some k)).2 = true ∧
      (showUniqueToast (showUniqueToast [] t1 m sev (some k)).1 t2 m sev (some k)).2 = false ∧
      (showUniqueToast
        (showUniqueToast (showUniqueToast [] t1 m sev (some k)).1 t2 m sev (some k)).1
        t3 m sev (some k)).2 = true := by
  have hkey : toastKey m (some k) = k := by simp [toastKey, hk]
  have h3' : ¬ (t3 < t1 + 5) := Nat.not_lt.mpr h3
  refine ⟨?_, ?_, ?_⟩ <;>
    simp [showUniqueToast, purgeExpired, hkey, h2, h3', List.filter]

/-- Witness for C7 at `t1 = 0`, `t2 = 3`, `t3 = 5`. -/
theorem c7_dedup_window_witness :
    (showUniqueToast [] 0 "X" "error" (some "k")).2 = true ∧
      (showUniqueToast (showUniqueToast [] 0 "X" "error" (some "k")).1 3 "X" "error" (some "k")).2 = false ∧
      (showUniqueToast
        (showUniqueToast (showUniqueToast [] 0 "X" "error" (some "k")).1 3 "X" "error" (some "k")).1
        5 "X" "error" (some "k")).2 = true :=
  c7_dedup_window "k" "X" "error" 0 3 5 (by decide) (by decide) (by decide)

/-- C10: running the first messages effect with a null user does not
no-op: the guarded fetch skips, but the realtime filter dereferences
`user.id`, so the whole setup faults; with a user present it completes. -/
theorem c10_null_user_setup_faults :
    (∀ store, messagesEffectSetup none store = Except.error nullDerefMsg) ∧
      (∀ u store,
        messagesEffectSetup (some u) store =
          Except.ok (some (fetchMessagesAsc u.id store),
            "sender_id=eq." ++ u.id ++ " OR receiver_id=eq." ++ u.id)) :=
  ⟨fun _ => rfl, fun _ _ => rfl⟩

/-- Concrete qualifying requests: `rq1` is older, `rq2` newer. -/
def rq1 : UserRequest := { user_id := "u1", status := "pending", created_at := 1 }

def rq2 : UserRequest := { user_id := "u2", status := "approved", created_at := 2 }

/-- C5 counterexample: the admin branch of `loadAdminUser` issues
`limit(1).single()` with no `order` clause, so it picks the first
qualifying row of the result set; on a store where an older qualifying
request precedes a newer one, the pick (`u1`) differs from the
most-recently-created qualifying request (`u2`) demanded by the claim. -/
theorem c5_pick_counterexample :
    loadAdminUserPick [rq1, rq2] = some "u1" ∧
      specMostRecentQualifyingPick [rq1, rq2] = some "u2" ∧
      loadAdminUserPick [rq1, rq2] ≠ specMostRecentQualifyingPick [rq1, rq2] := by
  refine ⟨rfl, rfl, ?_⟩
  decide

/-- C5 amended: for an elevated user the resolver returns the identity of
the *first* request in the result set whose status is pending or approved
— no recency ordering is applied. -/
theorem c5_pick_amended (requests : List UserRequest) :
    loadAdminUserPick requests = (requests.find? qualifies).map UserRequest.user_id := by
  induction requests with
  | nil => rfl
  | cons r rs ih =>
    by_cases h : qualifies r
    · simp [loadAdminUserPick, List.filter_cons, h, List.find?_cons, List.head?]
    · simp only [loadAdminUserPick, List.filter_cons] at ih ⊢
      simp [h, List.find?_cons, ih]

/-- C4 counterexample: with no sequence guard, applying the fresher
response (a two-message snapshot) and then the stale one (an earlier
one-message snapshot, completing late) leaves the stale list installed —
the stale response overwrites the fresher applied state. -/
theorem c4_stale_overwrite_counterexample :
    (applyFetchResult
        (applyFetchResult
          { messages := [], newMessage := "", selectedFile := none,
            isModalOpen := false, adminUser := none }
          (fetchMessagesDesc "u" [mA, mB]))
        (fetchMessagesDesc "u" [mA])).messages = [mA] ∧
      fetchMessagesDesc "u" [mA, mB] ≠ [mA] := by
  refine ⟨rfl, ?_⟩
  decide

/-- C4 amended: neither `checkStatus` nor `fetchMessages` carries a
request sequence number; `setMessages` installs every completed response,
so after any sequence of completions the state is simply the *last
completed* response — last-write-wins in completion order, with no
staleness check. -/
theorem c4_last_completion_wins (s : MessagesState) (rs : List (List MsgRow))
    (h : rs ≠ []) :
    some (rs.foldl applyFetchResult s).messages = rs.getLast? := by
  induction rs generalizing s with
  | nil => exact absurd rfl h
  | cons r rs ih =>
    cases rs with
    | nil => rfl
    | cons r2 rs2 =>
      rw [List.foldl_cons, List.getLast?_cons_cons]
      exact ih (applyFetchResult s r) (by simp)

/-- Witness for C4's amended theorem on a concrete two-response run. -/
theorem c4_last_completion_wins_witness :
    some ((List.foldl applyFetchResult
        { messages := [], newMessage := "", selectedFile := none,
          isModalOpen := false, adminUser := none }
        [[mB], [mA]]).messages) = some [mA] :=
  c4_last_completion_wins _ [[mB], [mA]] (by simp)

/-- C3 counterexample: starting from an empty conversation, a send whose
insert fails leaves the component state — including the message list —
exactly as it was: no pending optimistic entry was ever appended, so no
entry exists whose delivery state could become `failed` or be retried. -/
theorem c3_no_optimistic_entry_counterexample :
    (handleSendMessage "adm" { id := "u", role := none }
        { messages := [], newMessage := "hello", selectedFile := none,
          isModalOpen := true, adminUser := none }
        { uploadResult := Except.ok "", insertFails := true,
          storeAfterInsert := [], now := 5 }).1 =
      { messages := [], newMessage := "hello", selectedFile := none,
        isModalOpen := true, adminUser := none } := rfl

/-- C3 amended: `handleSendMessage` never touches the local list before
persistence; a failed upload or insert leaves the entire local state
unchanged (the error is only logged), and a successful insert clears the
inputs and replaces the list with a fresh (descending) fetch. -/
theorem c3_send_amended (adminIdC : String) (u : User) (s : MessagesState)
    (o : SendOracles) :
    (o.insertFails = true → (handleSendMessage adminIdC u s o).1 = s) ∧
      (o.uploadResult = Except.error () → ∀ f, s.selectedFile = some f →
        (handleSendMessage adminIdC u s o).1 = s) ∧
      (o.insertFails = false → s.selectedFile = none →
        (handleSendMessage adminIdC u s o).1.messages =
            fetchMessagesDesc u.id o.storeAfterInsert ∧
          (handleSendMessage adminIdC u s o).1.newMessage = "") := by
  refine ⟨fun hi => ?_, fun hu f hf => ?_, fun hi hf => ?_⟩
  · unfold handleSendMessage
    cases hup : uploadStep s o with
    | error e => rfl
    | ok fileUrl => simp [hi]
  · unfold handleSendMessage uploadStep
    rw [hf, hu]
    rfl
  · unfold handleSendMessage uploadStep
    rw [hf]
    simp [hi]

/-- Witness for C3's amended theorem: a failed insert leaves the state
unchanged; a successful file-less send clears the draft. -/
theorem c3_send_amended_witness :
    (handleSendMessage "adm" { id := "u", role := none }
        { messages := [mA], newMessage := "hi", selectedFile := none,
          isModalOpen := true, adminUser := none }
        { uploadResult := Except.ok "", insertFails := true,
          storeAfterInsert := [], now := 5 }).1 =
      { messages := [mA], newMessage := "hi", selectedFile := none,
        isModalOpen := true, adminUser := none } ∧
      (handleSendMessage "adm" { id := "u", role := none }
        { messages := [mA], newMessage := "hi", selectedFile := none,
          isModalOpen := true, adminUser := none }
        { uploadResult := Except.ok "", insertFails := false,
          storeAfterInsert := [], now := 5 }).1.newMessage = "" :=
  ⟨(c3_send_amended "adm" { id := "u", role := none } _ _).1 rfl,
    ((c3_send_amended "adm" { id := "u", role := none } _ _).2.2 rfl rfl).2⟩

/-- C9: whatever the component state — in particular whatever counterpart
`adminUser` resolved to, and whatever the sender's role — the row handed
to `insert` carries the imported `adminId` constant as `receiver_id`. -/
theorem c9_receiver_is_admin_constant (adminIdC : String) (u : User)
    (s : MessagesState) (o : SendOracles) (r : InsertRow)
    (h : (handleSendMessage adminIdC u s o).2 = some r) :
    r.receiver_id = adminIdC := by
  unfold handleSendMessage at h
  cases hup : uploadStep s o with
  | error e => rw [hup] at h; exact absurd h (by simp)
  | ok fileUrl =>
    rw [hup] at h
    by_cases hi : o.insertFails
    · simp [hi] at h
      rw [← h]
      rfl
    · simp [hi] at h
      rw [← h]
      rfl

/-- Witness for C9: an admin sender with a resolved counterpart whose id
differs from the constant still inserts `receiver_id = "fixed-admin"`. -/
theorem c9_receiver_is_admin_constant_witness :
    (insertPayload "fixed-admin" { id := "admin-sender", role := some "admin" }
        { messages := [], newMessage := " hi ", selectedFile := none,
          isModalOpen := true,
          adminUser := some { id := "resolved-other", email := "o@x", full_name := "O" } }
        { uploadResult := Except.ok "url", insertFails := false,
          storeAfterInsert := [], now := 7 } none).receiver_id = "fixed-admin" :=
  c9_receiver_is_admin_constant "fixed-admin"
    { id := "admin-sender", role := some "admin" }
    { messages := [], newMessage := " hi ", selectedFile := none,
      isModalOpen := true,
      adminUser := some { id := "resolved-other", email := "o@x", full_name := "O" } }
    { uploadResult := Except.ok "url", insertFails := false,
      storeAfterInsert := [], now := 7 }
    (insertPayload "fixed-admin" { id := "admin-sender", role := some "admin" }
      { messages := [], newMessage := " hi ", selectedFile := none,
        isModalOpen := true,
        adminUser := some { id := "resolved-other", email := "o@x", full_name := "O" } }
      { uploadResult := Except.ok "url", insertFails := false,
        storeAfterInsert := [], now := 7 } none)
    rfl

/-- Oracle for a reconciliation that finds one request with status
`approved`. -/
def oApproved : ReconcileOracles :=
  { q1 := Except.ok true, q2 := Except.ok (some "approved"), q3 := none }

/-- C1 (code bug evidence): on two consecutive interval ticks that both
observe `approved`, the tracker fires **two** success toasts — the
`approved` branch calls plain `toast.success` (bypassing the
`showUniqueToast` deduplicator) and contains no `clearInterval`, so the
very existence of the second processed tick shows polling was not halted,
contradicting the claim and the source's own comment "show success
message and stop checking". -/
theorem c1_approved_retoast_eval :
    (runReconciliations
        { hasRequest := true, applicationStatus := some "pending",
          rejectionReason := none }
        [oApproved, oApproved]).2 = 2 ∧
      (checkStatus
        { hasRequest := true, applicationStatus := some "approved",
          rejectionReason := none } oApproved).2.successToast = true := by
  exact ⟨rfl, rfl⟩

/-- Audit rows for the C6 counterexample: the later access carries the
stored reason. -/
def auditRows : List AuditRow :=
  [{ accessed_user_id := "u", access_reason := some "old reason", accessed_at := 10 },
   { accessed_user_id := "u", access_reason := some "incomplete profile", accessed_at := 20 }]

/-- Oracle for a reconciliation that observes `rejected`, with the reason
obtained through the embedded `admin_access` query over `auditRows`. -/
def oRejected : ReconcileOracles :=
  { q1 := Except.ok true, q2 := Except.ok (some "rejected"),
    q3 := latestAccessReason "u" auditRows }

/-- C6 counterexample: a reconciliation that transitions the tracker
from `pending` to `rejected` does set the reason to the most recent
matching audit record ("incomplete profile") and fires the failure
toast, but it emits **two** navigation side effects — `navigate("/")`
inside `checkStatus` plus the state-watching effect at lines 152-156,
re-triggered by the changed `applicationStatus` — not exactly one. -/
theorem c6_double_redirect_counterexample :
    reconcileNavigations
        { hasRequest := true, applicationStatus := some "pending",
          rejectionReason := none } oRejected = 2 ∧
      (checkStatus
        { hasRequest := true, applicationStatus := some "pending",
          rejectionReason := none } oRejected).1.rejectionReason =
        some "incomplete profile" := by
  exact ⟨rfl, rfl⟩

/-- C6 amended: a reconciliation observing `rejected` fires the failure
toast, stores the reason delivered by the `admin_access` query (most
recent matching record, `accessed_at` descending) and emits the redirect
from `checkStatus`; when the observation changed the rendered
`applicationStatus` — as in the `pending → rejected` transition — the
status-watching effect re-runs and emits a second redirect, two
emissions rather than exactly one, while a repeat observation from an
already-rejected rendered state leaves the effect's dependencies
unchanged and only `checkStatus`'s single redirect is emitted. -/
theorem c6_rejected_amended (s : TrackerState) (uid : String)
    (audit : List AuditRow) :
    (checkStatus s
        { q1 := Except.ok true, q2 := Except.ok (some "rejected"),
          q3 := latestAccessReason uid audit }).1.rejectionReason =
        latestAccessReason uid audit ∧
      (checkStatus s
        { q1 := Except.ok true, q2 := Except.ok (some "rejected"),
          q3 := latestAccessReason uid audit }).2.errorToast = true ∧
      (checkStatus s
        { q1 := Except.ok true, q2 := Except.ok (some "rejected"),
          q3 := latestAccessReason uid audit }).2.navigateHome = true ∧
      (s.applicationStatus ≠ some "rejected" →
        reconcileNavigations s
          { q1 := Except.ok true, q2 := Except.ok (some "rejected"),
            q3 := latestAccessReason uid audit } = 2) ∧
      (s.hasRequest = true → s.applicationStatus = some "rejected" →
        reconcileNavigations s
          { q1 := Except.ok true, q2 := Except.ok (some "rejected"),
            q3 := latestAccessReason uid audit } = 1) := by
  have hcs : checkStatus s
      { q1 := Except.ok true, q2 := Except.ok (some "rejected"),
        q3 := latestAccessReason uid audit } =
      ({ hasRequest := true, applicationStatus := some "rejected",
         rejectionReason := latestAccessReason uid audit },
        { noEff with errorToast := true, navigateHome := true }) := rfl
  refine ⟨rfl, rfl, rfl, fun h => ?_, fun h1 h2 => ?_⟩
  · have hb : (s.applicationStatus != some "rejected") = true := by
      simpa [bne_iff_ne] using h
    unfold reconcileNavigations
    rw [hcs]
    simp [redirectEffectRuns, hb]
  · unfold reconcileNavigations
    rw [hcs]
    simp [redirectEffectRuns, h1, h2]

/-- Witness for C6's amended theorem: the transition case emits two
redirects, the repeat observation from an already-rejected state one. -/
theorem c6_rejected_amended_witness :
    reconcileNavigations
        { hasRequest := true, applicationStatus := some "pending",
          rejectionReason := none }
        { q1 := Except.ok true, q2 := Except.ok (some "rejected"),
          q3 := latestAccessReason "u" auditRows } = 2 ∧
      reconcileNavigations
        { hasRequest := true, applicationStatus := some "rejected",
          rejectionReason := some "incomplete profile" }
        { q1 := Except.ok true, q2 := Except.ok (some "rejected"),
          q3 := latestAccessReason "u" auditRows } = 1 :=
  ⟨(c6_rejected_amended
      { hasRequest := true, applicationStatus := some "pending",
        rejectionReason := none } "u" auditRows).2.2.2.1 (by decide),
    (c6_rejected_amended
      { hasRequest := true, applicationStatus := some "rejected",
        rejectionReason := some "incomplete profile" } "u" auditRows).2.2.2.2
      rfl rfl⟩

/-- C8 counterexample: from a state with no known request, a
reconciliation whose existence probe succeeds (a request now exists) but
whose status query fails has already executed `setHasRequest(true)` when
the exception is caught — the resulting state differs from the previous
one, so reconciliation is not atomic with respect to errors. -/
theorem c8_partial_update_counterexample :
    (checkStatus
        { hasRequest := false, applicationStatus := none, rejectionReason := none }
        { q1 := Except.ok true, q2 := Except.error (), q3 := none }).1 ≠
      { hasRequest := false, applicationStatus := none, rejectionReason := none } ∧
    (checkStatus
        { hasRequest := false, applicationStatus := none, rejectionReason := none }
        { q1 := Except.ok true, q2 := Except.error (), q3 := none }).2 = logEff := by
  refine ⟨?_, rfl⟩
  decide

/-- C8 amended: a failing query is logged and swallowed and nothing is
surfaced (no toast, no redirect), but atomicity holds only up to the
failure point: a first-query failure leaves the whole state unchanged,
while a status-query failure retains status and reason yet has already
overwritten `hasRequest` with the first query's result. -/
theorem c8_swallowed_error_amended (s : TrackerState) (o : ReconcileOracles) :
    (o.q1 = Except.error () → checkStatus s o = (s, logEff)) ∧
      (∀ hr, o.q1 = Except.ok hr → o.q2 = Except.error () → hr = true →
        checkStatus s o = ({ s with hasRequest := true }, logEff)) := by
  obtain ⟨q1, q2, q3⟩ := o
  refine ⟨fun h1 => ?_, fun hr h1 h2 h3 => ?_⟩
  · cases h1
    rfl
  · cases h1
    cases h2
    cases h3
    rfl

/-- Witness for C8's amended theorem at the concrete failing run. -/
theorem c8_swallowed_error_amended_witness :
    checkStatus
        { hasRequest := false, applicationStatus := some "pending", rejectionReason := none }
        { q1 := Except.ok true, q2 := Except.error (), q3 := none } =
      ({ hasRequest := true, applicationStatus := some "pending", rejectionReason := none },
        logEff) :=
  (c8_swallowed_error_amended
      { hasRequest := false, applicationStatus := some "pending", rejectionReason := none }
      { q1 := Except.ok true, q2 := Except.error (), q3 := none }).2
    true rfl rfl rfl

end MediaTiger
